import Mathlib

/-!
Verification of the ealloora mobile client's core logic:
the device-status resolver of `app/(private)/device.tsx` and the
authenticated request layer of `core/requestsHelper.ts`, shallowly
embedded in Lean.  JavaScript optional fields are `Option`, arrays are
`List`, the truthiness of `x || y` on numbers/strings is modelled
explicitly, exceptions are `Except`, and effectful functions take an
explicit environment (outcomes of `fetch`, token refresh, storage
writes) and thread an explicit state (local storage, emitted events).
-/

namespace Ealloora

/-! ## JavaScript value helpers -/

/-- A thrown JavaScript value: either an `Error` with a message, or a
non-`Error` value (whose message is not extractable). -/
inductive JsError where
  | error (message : String)
  | nonError
deriving DecidableEq, Repr

/-- `error instanceof Error ? error.message : 'Unknown error'` — the
message extracted by every `catch` block of `requestsHelper.ts`. -/
def JsError.caughtMessage : JsError → String
  | .error m => m
  | .nonError => "Unknown error"

/-- JavaScript `a || b` on an optional number: `a` wins unless it is
absent (`undefined`/`null`) or the falsy number `0`. -/
def jsOrNum (a b : Option Int) : Option Int :=
  match a with
  | some v => if v = 0 then b else some v
  | none => b

/-- JavaScript `a || b` on an optional string with a string default:
`a` wins unless absent or the falsy empty string. -/
def jsOrStr (a : Option String) (b : String) : String :=
  match a with
  | some v => if v = "" then b else v
  | none => b

/-- JavaScript `list.includes(x)` where `x` may be `undefined`
(optional chaining): `undefined` is never a member. -/
def jsIncludes (l : List String) : Option String → Bool
  | some s => l.contains s
  | none => false

/-! ## Device record data model

Field shapes as accessed by `device.tsx` (`src/unnamed/part_003` /
`part_004`): every field reachable through `?.` is an `Option`, arrays
indexed with `?.[0]` are `List`s. -/

structure ModeObj where
  mode_id : Option Int
deriving DecidableEq, Repr

structure StateObj where
  state_name : Option String
  is_alarm : Option Bool
deriving DecidableEq, Repr

structure WatchFamilyEntry where
  state : Option StateObj
deriving DecidableEq, Repr

structure TermoEntry where
  /-- only its presence (`!= null`) is inspected by the resolver -/
  temperature : Option Int
deriving DecidableEq, Repr

structure TypeObj where
  types_name : Option String
deriving DecidableEq, Repr

structure BatteryEntry where
  charge_status : Option Int
deriving DecidableEq, Repr

structure Device where
  mode : Option ModeObj
  mode_id : Option Int
  last_watch_family_data : List WatchFamilyEntry
  type : Option TypeObj
  last_termo_data : List TermoEntry
  /-- timestamp of the last transmission, in epoch milliseconds; a
  present timestamp (a nonempty date string in the payload) is truthy -/
  updated_on : Option Int
  battery : List BatteryEntry
deriving DecidableEq, Repr

/-- An all-absent device record, for building concrete examples. -/
def Device.empty : Device :=
  { mode := none, mode_id := none, last_watch_family_data := []
    type := none, last_termo_data := [], updated_on := none, battery := [] }

/-! ## Device status resolver (`part_003`, English labels) -/

structure ConnState where
  status : String
  label : String
deriving DecidableEq, Repr

/-- `const modeId = device.mode?.mode_id || device.mode_id;` -/
def readModeId (device : Device) : Option Int :=
  jsOrNum (device.mode.bind ModeObj.mode_id) device.mode_id

def activeStates : List String := ["OK", "ARMED", "MONITORING"]

def inactiveStates : List String := ["DISARMED", "OFF", "DISCONNECTED"]

/-- Tiers 3–5 of `getConnectionState` in `part_003` (the code after the
`last_watch_family_data` block): termo freshness, 24-hour recency on
`updated_on`, default warning.  `now` is `new Date().getTime()` in
epoch ms; `hoursDiff < 24` is `now - lastUpdate < 86400000`. -/
def getConnectionStateTail (now : Int) (device : Device) : ConnState :=
  let termo :=
    if device.type.bind TypeObj.types_name = some "termo" then
      match device.last_termo_data.head? with
      | some lastTermoData => lastTermoData.temperature.isSome
      | none => false
    else false
  if termo then { status := "ok", label := "Connected" }
  else
    match device.updated_on with
    | some lastUpdate =>
        if now - lastUpdate < 86400000 then { status := "ok", label := "Connected" }
        else { status := "warning", label := "No recent data available" }
    | none => { status := "warning", label := "No recent data available" }

/-- `getConnectionState` of `src/unnamed/part_003` (device.tsx, English
labels), with the current time passed explicitly. -/
def getConnectionState (now : Int) (device : Device) : ConnState :=
  let modeId := readModeId device
  if modeId ≠ some 1 then { status := "ko", label := "Disconnected" }
  else
    match device.last_watch_family_data.head? with
    | some lastWatchFamilyData =>
        let state := lastWatchFamilyData.state
        if state.bind StateObj.is_alarm = some true then
          { status := "alarm", label := "Active Alarm" }
        else if jsIncludes activeStates (state.bind StateObj.state_name) then
          { status := "ok", label := "Connected" }
        else if jsIncludes inactiveStates (state.bind StateObj.state_name) then
          { status := "ko", label := "Disconnected" }
        else getConnectionStateTail now device
    | none => getConnectionStateTail now device

/-! ## Device status resolver (`part_004`, Spanish labels) -/

/-- Tiers 3–5 of `getConnectionState` in `src/unnamed/part_004`
(identical logic, Spanish labels). -/
def getConnectionStateEsTail (now : Int) (device : Device) : ConnState :=
  let termo :=
    if device.type.bind TypeObj.types_name = some "termo" then
      match device.last_termo_data.head? with
      | some lastTermoData => lastTermoData.temperature.isSome
      | none => false
    else false
  if termo then { status := "ok", label := "Conectado" }
  else
    match device.updated_on with
    | some lastUpdate =>
        if now - lastUpdate < 86400000 then { status := "ok", label := "Conectado" }
        else { status := "warning", label := "Sin datos recientes" }
    | none => { status := "warning", label := "Sin datos recientes" }

/-- `getConnectionState` of `src/unnamed/part_004`: same tiers as
`part_003`, Spanish labels. -/
def getConnectionStateEs (now : Int) (device : Device) : ConnState :=
  let modeId := readModeId device
  if modeId ≠ some 1 then { status := "ko", label := "Desconectado" }
  else
    match device.last_watch_family_data.head? with
    | some lastWatchFamilyData =>
        let state := lastWatchFamilyData.state
        if state.bind StateObj.is_alarm = some true then
          { status := "alarm", label := "Alarma Activa" }
        else if jsIncludes activeStates (state.bind StateObj.state_name) then
          { status := "ok", label := "Conectado" }
        else if jsIncludes inactiveStates (state.bind StateObj.state_name) then
          { status := "ko", label := "Desconectado" }
        else getConnectionStateEsTail now device
    | none => getConnectionStateEsTail now device

/-! ## Derived helpers of device.tsx -/

/-- Result of `getBatteryStatus`: either the numeric charge status or
the `'-'` placeholder. -/
inductive BatteryDisplay where
  | num (n : Int)
  | dash
deriving DecidableEq, Repr

/-- `device.battery?.[0]?.charge_status || '-'` (`part_003` line 192 /
`part_004` line 198): JavaScript `||`, so a charge status of `0` is
falsy and yields the placeholder. -/
def getBatteryStatus (device : Device) : BatteryDisplay :=
  match device.battery.head?.bind BatteryEntry.charge_status with
  | some v => if v = 0 then .dash else .num v
  | none => .dash

/-- `needsAttention` of `part_003` lines 331–335: resolved status is
`'alarm'` or `'ko'`. -/
def needsAttention (now : Int) (device : Device) : Bool :=
  let connectionState := getConnectionState now device
  connectionState.status = "alarm" || connectionState.status = "ko"

/-! ## Authenticated request layer (`core/requestsHelper.ts`)

Each operation is embedded as a function of an explicit environment
recording the outcomes of its awaited effects (identity-provider user,
token refresh, storage write, `fetch`).  The `...Body` function is the
`try` block, in `Except` (`.error` = a raised/rejected exception); the
outer function applies the `catch` handler where the source has one. -/

/-- `api.endpoint` of `constants/api.ts`. -/
def apiEndpoint : String :=
  "https://us-central1-nettrotter-app-dev.cloudfunctions.net/api/dev/"

/-- Decoded JSON body of a server response, with the envelope fields
`requestsHelper.ts` inspects. -/
structure UserPayload where
  status_code : Option Int
  message : Option String
deriving DecidableEq, Repr

instance {ε α : Type} [DecidableEq ε] [DecidableEq α] :
    DecidableEq (Except ε α) := fun x y =>
  match x, y with
  | .ok a, .ok b => if h : a = b then .isTrue (by rw [h]) else .isFalse (by simp [h])
  | .error a, .error b => if h : a = b then .isTrue (by rw [h]) else .isFalse (by simp [h])
  | .ok _, .error _ => .isFalse (by simp)
  | .error _, .ok _ => .isFalse (by simp)

/-- A settled `fetch` response: `ok`, `status`, and the outcome of
`response.json()` (which may itself reject). -/
structure HttpResponse where
  ok : Bool
  status : Int
  json : Except JsError UserPayload
deriving DecidableEq, Repr

structure LangEnv where
  /-- `firebaseAuth.currentUser` is non-null -/
  currentUser : Bool
  /-- outcome of `currentUser.getIdToken(true)` -/
  idToken : Except JsError String
  /-- outcome of `AsyncStorage.setItem('lang', itemValue)` -/
  setItemResult : Except JsError Unit
  /-- outcome of the `fetch` PUT -/
  response : Except JsError HttpResponse

/-- Local key-value storage plus the observable local effects of the
language-change flow (emitted `DeviceEventEmitter` events, callback
invocations). -/
structure AppState where
  storage : List (String × String)
  events : List (String × String)
  callbackRuns : Nat
deriving DecidableEq, Repr

def setItem (storage : List (String × String)) (k v : String) :
    List (String × String) :=
  (k, v) :: storage

def getItem (storage : List (String × String)) (k : String) : Option String :=
  (storage.find? (fun p => p.1 == k)).map (fun p => p.2)

structure LanguageChangeResponse where
  success : Bool
  error : Option String
deriving DecidableEq, Repr

/-- The `try` block of `changeLangOnServer` (`requestsHelper.ts`
lines 25–67): check user, refresh token, write `'lang'` to storage,
PUT to the server, then emit `_langChanged` and run the callback. -/
def changeLangOnServerBody (env : LangEnv) (itemValue : String)
    (hasCallback : Bool) (st : AppState) :
    Except JsError LanguageChangeResponse × AppState :=
  if env.currentUser = false then
    (.error (.error "No authenticated user found"), st)
  else
    match env.idToken with
    | .error e => (.error e, st)
    | .ok _accessToken =>
      match env.setItemResult with
      | .error e => (.error e, st)
      | .ok _ =>
        let st1 := { st with storage := setItem st.storage "lang" itemValue }
        match env.response with
        | .error e => (.error e, st1)
        | .ok response =>
          if response.ok = false then
            (.error (.error ("Server responded with status: " ++ toString response.status)), st1)
          else
            match response.json with
            | .error e => (.error e, st1)
            | .ok _responseData =>
              let st2 := { st1 with events := st1.events ++ [("_langChanged", itemValue)] }
              let st3 := if hasCallback then { st2 with callbackRuns := st2.callbackRuns + 1 } else st2
              (.ok { success := true, error := none }, st3)

/-- `changeLangOnServer`: the `try` block wrapped in its `catch`, which
turns any exception into `{ success: false, error }`. -/
def changeLangOnServer (env : LangEnv) (itemValue : String)
    (hasCallback : Bool) (st : AppState) :
    LanguageChangeResponse × AppState :=
  match changeLangOnServerBody env itemValue hasCallback st with
  | (.ok r, st') => (r, st')
  | (.error e, st') => ({ success := false, error := some e.caughtMessage }, st')

structure TokenEnv where
  currentUser : Bool
  idToken : Except JsError String

/-- The `try` block of `getCurrentUserToken` (lines 81–88): `null`
when no user, else the refreshed token. -/
def getCurrentUserTokenBody (env : TokenEnv) : Except JsError (Option String) :=
  if env.currentUser = false then .ok none
  else
    match env.idToken with
    | .ok t => .ok (some t)
    | .error e => .error e

/-- `getCurrentUserToken`: the `catch` returns `null` on any error. -/
def getCurrentUserToken (env : TokenEnv) : Option String :=
  match getCurrentUserTokenBody env with
  | .ok r => r
  | .error _ => none

structure GetUserEnv where
  currentUser : Bool
  idToken : Except JsError String
  response : Except JsError HttpResponse

structure GetUserDataResult where
  success : Bool
  data : Option UserPayload
  error : Option String
deriving DecidableEq, Repr

/-- The `try` block of `getUserData` (lines 104–147): check user,
refresh token, GET, throw on `!response.ok`, decode, throw when the
envelope's `status_code === 400` (with `message || 'Server error'`),
else return `{ success: true, data }`. -/
def getUserDataBody (env : GetUserEnv) : Except JsError GetUserDataResult :=
  if env.currentUser = false then
    .error (.error "No authenticated user found")
  else
    match env.idToken with
    | .error e => .error e
    | .ok _accessToken =>
      match env.response with
      | .error e => .error e
      | .ok response =>
        if response.ok = false then
          .error (.error ("Server responded with status: " ++ toString response.status))
        else
          match response.json with
          | .error e => .error e
          | .ok responseData =>
            if responseData.status_code = some 400 then
              .error (.error (jsOrStr responseData.message "Server error"))
            else
              .ok { success := true, data := some responseData, error := none }

/-- `getUserData`: the `catch` turns any exception into
`{ success: false, error }`. -/
def getUserData (env : GetUserEnv) : GetUserDataResult :=
  match getUserDataBody env with
  | .ok r => r
  | .error e => { success := false, data := none, error := some e.caughtMessage }

/-- The slice of `RequestInit` that `makeAuthenticatedRequest` reads
and rewrites; headers as a key → value map. -/
structure RequestInit where
  method : Option String
  body : Option String
  headers : String → Option String

/-- `RequestInit = {}` default: no method, no body, no headers. -/
def RequestInit.empty : RequestInit :=
  { method := none, body := none, headers := fun _ => none }

/-- The `defaultHeaders` object of `makeAuthenticatedRequest`
(lines 170–174). -/
def defaultHeaders (token : String) : String → Option String := fun k =>
  if k = "Accept" then some "application/json"
  else if k = "Content-Type" then some "application/json"
  else if k = "Authorization" then some ("Bearer " ++ token)
  else none

/-- `{...defaultHeaders, ...options.headers}`: spread merge where the
later (caller-supplied) object wins on conflicting keys. -/
def mergeHeaders (defaults callerHeaders : String → Option String) :
    String → Option String := fun k =>
  match callerHeaders k with
  | some v => some v
  | none => defaults k

/-- One `fetch` invocation: the URL and the request init passed. -/
structure FetchCall where
  url : String
  init : RequestInit

structure AuthReqEnv where
  tokenEnv : TokenEnv
  fetchResult : Except JsError HttpResponse

/-- `makeAuthenticatedRequest` (lines 160–183): no `try`/`catch` — it
throws when `getCurrentUserToken` yields `null`, and otherwise calls
`fetch` once with the merged init; a rejected `fetch` propagates.  The
second component is the trace of `fetch` calls made. -/
def makeAuthenticatedRequest (env : AuthReqEnv) (endpoint : String)
    (options : RequestInit) : Except JsError HttpResponse × List FetchCall :=
  match getCurrentUserToken env.tokenEnv with
  | none => (.error (.error "No authentication token available"), [])
  | some token =>
    let init : RequestInit :=
      { options with headers := mergeHeaders (defaultHeaders token) options.headers }
    (env.fetchResult, [{ url := apiEndpoint ++ endpoint, init := init }])

/-! ## Language setup on launch (`part_003` lines 98–123) -/

/-- The keys of the `translations` object of `device.tsx`
(`{ en, it, es, fr, sv, fi }`). -/
def supportedLangs : List String := ["en", "it", "es", "fr", "sv", "fi"]

/-- The `else` branch of `setupLanguage` (no stored language): derive
a code from the device locale and persist `langCode || 'en'`. -/
def setupLanguageFromLocale (storage : List (String × String))
    (deviceLanguageCode : Option String) : String × List (String × String) :=
  let langCode := deviceLanguageCode.map (fun s => s.take 2)
  let lang :=
    match langCode with
    | some c => if supportedLangs.contains c then c else "en"
    | none => "en"
  (lang, setItem storage "lang" (jsOrStr langCode "en"))

/-- `setupLanguage` of `part_003`: read `'lang'` from local storage; a
truthy stored value selects `translations[storedLang.substring(0,2)]`
if supported, else `'en'`, with no write and no network access;
otherwise fall back to the device locale.  Returns the resulting
active language and the resulting storage. -/
def setupLanguage (storage : List (String × String))
    (deviceLanguageCode : Option String) : String × List (String × String) :=
  match getItem storage "lang" with
  | some storedLang =>
    if storedLang ≠ "" then
      let langCode := storedLang.take 2
      (if supportedLangs.contains langCode then langCode else "en", storage)
    else setupLanguageFromLocale storage deviceLanguageCode
  | none => setupLanguageFromLocale storage deviceLanguageCode

/-! ## Reference definition for the fall-through tiers (spec §4.2, tiers 3–5) -/

/-- Reference definition written from the spec's words for tiers 3–5:
termo with a present temperature → connected; else a present
`updatedOn` less than 24 hours old → connected; else warning
"No recent data available". -/
def specFallbackStatus (now : Int) (device : Device) : ConnState :=
  if device.type.bind TypeObj.types_name = some "termo" ∧
      (device.last_termo_data.head?.bind TermoEntry.temperature).isSome then
    { status := "ok", label := "Connected" }
  else
    match device.updated_on with
    | some t =>
        if now - t < 86400000 then { status := "ok", label := "Connected" }
        else { status := "warning", label := "No recent data available" }
    | none => { status := "warning", label := "No recent data available" }

theorem getConnectionStateTail_eq_spec (now : Int) (device : Device) :
    getConnectionStateTail now device = specFallbackStatus now device := by
  unfold getConnectionStateTail specFallbackStatus
  by_cases h1 : device.type.bind TypeObj.types_name = some "termo" <;>
    cases h2 : device.last_termo_data.head? <;>
      simp [h1, h2]

/-! ## Claim theorems: device status resolver -/

/-- C1: for every device record whose modeId (`mode?.mode_id ||
mode_id`) is not `1`, `getConnectionState` returns status `'ko'`
(disconnected) with label "Disconnected" (English version of
device.tsx, `part_003`; the duplicate in `part_004` returns the same
status with its Spanish label), regardless of every other field. -/
theorem C1_mode_off_disconnected (now : Int) (device : Device)
    (h : readModeId device ≠ some 1) :
    getConnectionState now device = { status := "ko", label := "Disconnected" } ∧
    getConnectionStateEs now device = { status := "ko", label := "Desconectado" } := by
  constructor
  · simp [getConnectionState, h]
  · simp [getConnectionStateEs, h]

/-- Witness for C1 at a concrete record (everything absent, so the
mode read yields `undefined ≠ 1`). -/
theorem C1_witness :
    getConnectionState 0 Device.empty = { status := "ko", label := "Disconnected" } ∧
    getConnectionStateEs 0 Device.empty = { status := "ko", label := "Desconectado" } :=
  C1_mode_off_disconnected 0 Device.empty (by decide)

/-- C2: with modeId `1` and a first `last_watch_family_data` entry
whose `state.is_alarm === true`, `getConnectionState` returns status
`'alarm'` with label "Active Alarm"; no hypothesis constrains
`state_name`, so the alarm check takes priority over the state-name
classification (an ARMED-and-alarming record resolves to alarm). -/
theorem C2_alarm_priority (now : Int) (device : Device)
    (hmode : readModeId device = some 1)
    (w : WatchFamilyEntry)
    (hw : device.last_watch_family_data.head? = some w)
    (halarm : w.state.bind StateObj.is_alarm = some true) :
    getConnectionState now device = { status := "alarm", label := "Active Alarm" } := by
  simp [getConnectionState, hmode, hw, halarm]

/-- A record that is simultaneously ARMED and alarming. -/
def armedAlarmingDevice : Device :=
  { Device.empty with
    mode_id := some 1
    last_watch_family_data :=
      [{ state := some { state_name := some "ARMED", is_alarm := some true } }] }

/-- Witness for C2: the ARMED-and-alarming record resolves to alarm,
not to connected. -/
theorem C2_witness :
    getConnectionState 0 armedAlarmingDevice = { status := "alarm", label := "Active Alarm" } :=
  C2_alarm_priority 0 armedAlarmingDevice (by decide)
    { state := some { state_name := some "ARMED", is_alarm := some true } }
    (by decide) (by decide)

/-- C3: with modeId `1` and the family-state tier falling through
(no first `last_watch_family_data` entry, or a non-alarm state whose
name is in neither the active nor the inactive list),
`getConnectionState` coincides with the reference definition
`specFallbackStatus` written from the spec's words (termo freshness,
then 24-hour recency on `updatedOn`, then the warning default). -/
theorem C3_fallback_matches_spec (now : Int) (device : Device)
    (hmode : readModeId device = some 1)
    (hfam : device.last_watch_family_data.head? = none ∨
      ∃ w, device.last_watch_family_data.head? = some w ∧
        w.state.bind StateObj.is_alarm ≠ some true ∧
        jsIncludes activeStates (w.state.bind StateObj.state_name) = false ∧
        jsIncludes inactiveStates (w.state.bind StateObj.state_name) = false) :
    getConnectionState now device = specFallbackStatus now device := by
  rcases hfam with hnone | ⟨w, hw, halarm, hact, hinact⟩
  · rw [← getConnectionStateTail_eq_spec]
    simp [getConnectionState, hmode, hnone]
  · rw [← getConnectionStateTail_eq_spec]
    simp [getConnectionState, hmode, hw, halarm, hact, hinact]

/-- A powered termo record with a fresh temperature and no
family-state data. -/
def termoDevice : Device :=
  { Device.empty with
    mode_id := some 1
    type := some { types_name := some "termo" }
    last_termo_data := [{ temperature := some 21 }] }

/-- Witness for C3 at the termo record. -/
theorem C3_witness :
    getConnectionState 0 termoDevice = specFallbackStatus 0 termoDevice :=
  C3_fallback_matches_spec 0 termoDevice (by decide) (Or.inl (by decide))

/-- C7: `needsAttention` is true exactly when the resolved status is
`'alarm'` or `'ko'`; for `'ok'` and `'warning'` it is false. -/
theorem C7_needsAttention_iff (now : Int) (device : Device) :
    needsAttention now device = true ↔
      ((getConnectionState now device).status = "alarm" ∨
        (getConnectionState now device).status = "ko") := by
  simp [needsAttention]

/-- Witness for C7 at the ARMED-and-alarming record. -/
theorem C7_witness :
    needsAttention 0 armedAlarmingDevice = true ↔
      ((getConnectionState 0 armedAlarmingDevice).status = "alarm" ∨
        (getConnectionState 0 armedAlarmingDevice).status = "ko") :=
  C7_needsAttention_iff 0 armedAlarmingDevice

/-- A record whose first battery entry carries `charge_status: 0`. -/
def zeroChargeDevice : Device :=
  { Device.empty with battery := [{ charge_status := some 0 }] }

/-- C8 counterexample: with `charge_status` present and equal to `0`,
`getBatteryStatus` returns the `'-'` placeholder (JavaScript `||`
treats the number `0` as falsy), not the present charge status, so
the claim "returns `battery[0].chargeStatus` whenever that field is
present" is false. -/
theorem C8_counterexample :
    zeroChargeDevice.battery.head?.bind BatteryEntry.charge_status = some 0 ∧
    getBatteryStatus zeroChargeDevice ≠ BatteryDisplay.num 0 ∧
    getBatteryStatus zeroChargeDevice = BatteryDisplay.dash := by decide

/-- C8 (amended): `getBatteryStatus` returns `battery[0].chargeStatus`
whenever that field is present and non-zero, and the placeholder `'-'`
when the battery array or the `chargeStatus` field is absent — and
also when `chargeStatus` is `0`, which `||` treats as falsy. -/
theorem C8_battery_status (device : Device) :
    (∀ v : Int, device.battery.head?.bind BatteryEntry.charge_status = some v →
      v ≠ 0 → getBatteryStatus device = BatteryDisplay.num v) ∧
    (device.battery.head?.bind BatteryEntry.charge_status = none ∨
        device.battery.head?.bind BatteryEntry.charge_status = some 0 →
      getBatteryStatus device = BatteryDisplay.dash) := by
  constructor
  · intro v hv hnz
    simp [getBatteryStatus, hv, hnz]
  · rintro (h | h) <;> simp [getBatteryStatus, h]

/-- Witness for C8 at records with charge 85, with no battery entry,
and with charge 0. -/
theorem C8_witness :
    getBatteryStatus { Device.empty with battery := [{ charge_status := some 85 }] } =
      BatteryDisplay.num 85 ∧
    getBatteryStatus Device.empty = BatteryDisplay.dash ∧
    getBatteryStatus zeroChargeDevice = BatteryDisplay.dash :=
  ⟨(C8_battery_status _).1 85 (by decide) (by decide),
   (C8_battery_status _).2 (Or.inl (by decide)),
   (C8_battery_status _).2 (Or.inr (by decide))⟩

/-! ## Claim theorems: request layer -/

/-- Payload carrying an in-body status code 500. -/
def payload500 : UserPayload := { status_code := some 500, message := some "Internal failure" }

/-- Environment for `getUserData` where the transport succeeds and the
decoded envelope carries `status_code: 500`. -/
def envStatus500 : GetUserEnv :=
  { currentUser := true, idToken := .ok "tok",
    response := .ok { ok := true, status := 200, json := .ok payload500 } }

/-- C4 counterexample: the decoded JSON carries `status_code: 500`
(which is ≥ 400), yet `getUserData` returns success with the payload —
the source checks `status_code === 400` only, so the claim "status
code ≥ 400 yields a tagged failure" is false. -/
theorem C4_counterexample :
    (400 : Int) ≤ 500 ∧
    getUserData envStatus500 = { success := true, data := some payload500, error := none } :=
  ⟨by decide, rfl⟩

/-- C4 (amended): `getUserData` returns a tagged failure carrying the
server-supplied message exactly when the decoded envelope's
`status_code` is strictly equal to 400 (`message || 'Server error'`);
other in-body codes ≥ 400 pass through as success; and no exception
whatsoever propagates to the caller — every exception raised in the
body is converted by the `catch` into a tagged `{success: false}`. -/
theorem C4_server_rejected (env : GetUserEnv) :
    (∀ tok response responseData,
      env.currentUser = true → env.idToken = .ok tok →
      env.response = .ok response → response.ok = true →
      response.json = .ok responseData →
      responseData.status_code = some 400 →
      getUserData env =
        { success := false, data := none,
          error := some (jsOrStr responseData.message "Server error") }) ∧
    (∀ e, getUserDataBody env = .error e →
      getUserData env = { success := false, data := none, error := some e.caughtMessage }) := by
  constructor
  · intro tok response responseData huser htok hresp hok hjson hcode
    simp [getUserData, getUserDataBody, JsError.caughtMessage,
      huser, htok, hresp, hok, hjson, hcode]
  · intro e he
    simp [getUserData, he]

/-- Envelope carrying `status_code: 400` with a server message. -/
def payload400 : UserPayload := { status_code := some 400, message := some "User not found" }

/-- Environment whose decoded envelope is `payload400`. -/
def envStatus400 : GetUserEnv :=
  { currentUser := true, idToken := .ok "tok",
    response := .ok { ok := true, status := 200, json := .ok payload400 } }

/-- Witness for C4: the 400 envelope surfaces as a tagged failure
carrying the server's message. -/
theorem C4_witness :
    getUserData envStatus400 =
      { success := false, data := none, error := some "User not found" } := by
  have h := (C4_server_rejected envStatus400).1 "tok"
    { ok := true, status := 200, json := .ok payload400 } payload400
    rfl rfl rfl rfl rfl rfl
  simpa [jsOrStr, payload400] using h

/-- An all-`none` decoded envelope. -/
def payloadPlain : UserPayload := { status_code := none, message := none }

/-- Environment for `makeAuthenticatedRequest` with no signed-in
user. -/
def envNoUser : AuthReqEnv :=
  { tokenEnv := { currentUser := false, idToken := .ok "tok" },
    fetchResult := .ok { ok := true, status := 200, json := .ok payloadPlain } }

/-- C5 counterexample: `makeAuthenticatedRequest` has no `catch`; with
no identity-provider session it rejects past its boundary with a raw
thrown error instead of returning a tagged result, so the claim that
every operation of the request layer never throws is false. -/
theorem C5_counterexample :
    (makeAuthenticatedRequest envNoUser "user/u1" RequestInit.empty).1 =
      .error (JsError.error "No authentication token available") := rfl

/-- C5 (amended): `changeLangOnServer`, `getCurrentUserToken` and
`getUserData` never throw past their own boundary — each `catch`
converts any exception raised in the body into a tagged result (or
`null` for the token) — but `makeAuthenticatedRequest` does throw: it
rejects with a no-token error when the token is unavailable, and when
a token exists its result is exactly the `fetch` outcome, so a
transport rejection propagates to the caller. -/
theorem C5_error_boundaries :
    (∀ env itemValue hasCallback st e st',
      changeLangOnServerBody env itemValue hasCallback st = (.error e, st') →
      changeLangOnServer env itemValue hasCallback st =
        ({ success := false, error := some e.caughtMessage }, st')) ∧
    (∀ env e, getCurrentUserTokenBody env = .error e → getCurrentUserToken env = none) ∧
    (∀ env e, getUserDataBody env = .error e →
      getUserData env = { success := false, data := none, error := some e.caughtMessage }) ∧
    (∀ env endpoint options, getCurrentUserToken env.tokenEnv = none →
      (makeAuthenticatedRequest env endpoint options).1 =
        .error (JsError.error "No authentication token available")) ∧
    (∀ env endpoint options token, getCurrentUserToken env.tokenEnv = some token →
      (makeAuthenticatedRequest env endpoint options).1 = env.fetchResult) := by
  refine ⟨?_, ?_, ?_, ?_, ?_⟩
  · intro env itemValue hasCallback st e st' h
    simp [changeLangOnServer, h]
  · intro env e h
    simp [getCurrentUserToken, h]
  · intro env e h
    simp [getUserData, h]
  · intro env endpoint options h
    simp [makeAuthenticatedRequest, h]
  · intro env endpoint options token h
    simp [makeAuthenticatedRequest, h]

/-- Language-change environment whose PUT transport rejects. -/
def envPutRejected : LangEnv :=
  { currentUser := true, idToken := .ok "tok", setItemResult := .ok (),
    response := .error (.error "Network request failed") }

/-- Empty starting state: no stored keys, no events, no callback runs. -/
def emptyState : AppState := { storage := [], events := [], callbackRuns := 0 }

/-- Witness for C5: each caught boundary at a concrete input, and the
uncaught no-token rejection of `makeAuthenticatedRequest`. -/
theorem C5_witness :
    changeLangOnServer envPutRejected "es" false emptyState =
      ({ success := false, error := some "Network request failed" },
        { storage := [("lang", "es")], events := [], callbackRuns := 0 }) ∧
    getCurrentUserToken { currentUser := true, idToken := .error (.error "boom") } = none ∧
    getUserData
        { currentUser := true, idToken := .ok "tok",
          response := .error (.error "Network request failed") } =
      { success := false, data := none, error := some "Network request failed" } ∧
    (makeAuthenticatedRequest envNoUser "user/u1" RequestInit.empty).1 =
      .error (JsError.error "No authentication token available") :=
  ⟨C5_error_boundaries.1 envPutRejected "es" false emptyState
      (.error "Network request failed") _ rfl,
   C5_error_boundaries.2.1 _ (.error "boom") rfl,
   C5_error_boundaries.2.2.1 _ (.error "Network request failed") rfl,
   C5_error_boundaries.2.2.2.1 envNoUser "user/u1" RequestInit.empty rfl⟩

/-- C6: when `getCurrentUserToken` yields `null`,
`makeAuthenticatedRequest` fails with the no-token error and the
`fetch` trace is empty (no network call); otherwise it issues exactly
one `fetch` to `api.endpoint ++ endpoint` whose headers are the JSON
defaults plus the bearer `Authorization`, merged with the
caller-supplied headers, and on every conflicting key the
caller-supplied value wins. -/
theorem C6_auth_request (env : AuthReqEnv) (endpoint : String) (options : RequestInit) :
    (getCurrentUserToken env.tokenEnv = none →
      makeAuthenticatedRequest env endpoint options =
        (.error (JsError.error "No authentication token available"), [])) ∧
    (∀ token, getCurrentUserToken env.tokenEnv = some token →
      ∃ call, (makeAuthenticatedRequest env endpoint options).2 = [call] ∧
        call.url = apiEndpoint ++ endpoint ∧
        call.init.method = options.method ∧
        call.init.body = options.body ∧
        (∀ k, call.init.headers k =
          match options.headers k with
          | some v => some v
          | none => defaultHeaders token k) ∧
        (options.headers "Authorization" = none →
          call.init.headers "Authorization" = some ("Bearer " ++ token))) := by
  constructor
  · intro h
    simp [makeAuthenticatedRequest, h]
  · intro token h
    refine ⟨{ url := apiEndpoint ++ endpoint,
              init :=
                { options with
                  headers := mergeHeaders (defaultHeaders token) options.headers } },
      ?_, rfl, rfl, rfl, ?_, ?_⟩
    · simp [makeAuthenticatedRequest, h]
    · intro k
      rfl
    · intro hnone
      simp [mergeHeaders, hnone, defaultHeaders]

/-- Caller options overriding the `Content-Type` header. -/
def overridingInit : RequestInit :=
  { method := some "PUT", body := some "{}",
    headers := fun k => if k = "Content-Type" then some "text/plain" else none }

/-- Environment with an active session for `makeAuthenticatedRequest`. -/
def envWithUser : AuthReqEnv :=
  { tokenEnv := { currentUser := true, idToken := .ok "tok" },
    fetchResult := .ok { ok := true, status := 200, json := .ok payloadPlain } }

/-- Witness for C6: with a live session the single `fetch` call goes to
the endpoint with the caller's `Content-Type` winning over the JSON
default and the bearer header present. -/
theorem C6_witness :
    ∃ call, (makeAuthenticatedRequest envWithUser "device/123" overridingInit).2 = [call] ∧
      call.url = apiEndpoint ++ "device/123" ∧
      call.init.method = overridingInit.method ∧
      call.init.body = overridingInit.body ∧
      (∀ k, call.init.headers k =
        match overridingInit.headers k with
        | some v => some v
        | none => defaultHeaders "tok" k) ∧
      (overridingInit.headers "Authorization" = none →
        call.init.headers "Authorization" = some ("Bearer " ++ "tok")) :=
  (C6_auth_request envWithUser "device/123" overridingInit).2 "tok" rfl

/-! ## Claim theorems: language round trip and non-atomicity -/

theorem supported_two_letter (s : String) (h : s ∈ supportedLangs) :
    s.take 2 = s ∧ s ≠ "" := by
  simp [supportedLangs] at h
  rcases h with rfl | rfl | rfl | rfl | rfl | rfl <;> exact ⟨by decide, by decide⟩

/-- C9: after a successful `changeLangOnServer(langCode, userId)` run
(the user is signed in, the token refresh, local write, PUT and decode
all succeed), the local store holds `langCode` under the key `'lang'`,
and `setupLanguage` on that store — which reads only the local store
and, in the stored-language branch, performs no write and no network
call — restores `langCode` as the active locale, for every supported
language code and regardless of the device locale. -/
theorem C9_lang_round_trip (env : LangEnv) (itemValue : String) (hasCallback : Bool)
    (st : AppState) (deviceLanguageCode : Option String)
    (huser : env.currentUser = true)
    (htok : ∃ tok, env.idToken = .ok tok)
    (hset : env.setItemResult = .ok ())
    (hresp : ∃ response, env.response = .ok response ∧ response.ok = true ∧
      ∃ pl, response.json = .ok pl)
    (hsupp : itemValue ∈ supportedLangs) :
    ((changeLangOnServer env itemValue hasCallback st).1).success = true ∧
    getItem (changeLangOnServer env itemValue hasCallback st).2.storage "lang" =
      some itemValue ∧
    setupLanguage (changeLangOnServer env itemValue hasCallback st).2.storage
        deviceLanguageCode =
      (itemValue, (changeLangOnServer env itemValue hasCallback st).2.storage) := by
  obtain ⟨tok, htok⟩ := htok
  obtain ⟨response, hresp, hok, pl, hjson⟩ := hresp
  obtain ⟨htake, hne⟩ := supported_two_letter itemValue hsupp
  have hst : (changeLangOnServer env itemValue hasCallback st).2.storage =
      ("lang", itemValue) :: st.storage := by
    cases hasCallback <;>
      simp [changeLangOnServer, changeLangOnServerBody, huser, htok, hset,
        hresp, hok, hjson, setItem]
  refine ⟨?_, ?_, ?_⟩
  · cases hasCallback <;>
      simp [changeLangOnServer, changeLangOnServerBody, huser, htok, hset,
        hresp, hok, hjson]
  · rw [hst]
    simp [getItem]
  · rw [hst]
    simp [setupLanguage, getItem, hne, htake, hsupp]

/-- Environment where the whole language-change flow succeeds. -/
def envPutOk : LangEnv :=
  { currentUser := true, idToken := .ok "tok", setItemResult := .ok (),
    response := .ok { ok := true, status := 200, json := .ok payloadPlain } }

/-- Witness for C9 at `langCode = "es"` with an Italian device locale. -/
theorem C9_witness :
    ((changeLangOnServer envPutOk "es" false emptyState).1).success = true ∧
    getItem (changeLangOnServer envPutOk "es" false emptyState).2.storage "lang" =
      some "es" ∧
    setupLanguage (changeLangOnServer envPutOk "es" false emptyState).2.storage
        (some "it") =
      ("es", (changeLangOnServer envPutOk "es" false emptyState).2.storage) :=
  C9_lang_round_trip envPutOk "es" false emptyState (some "it") rfl ⟨"tok", rfl⟩ rfl
    ⟨_, rfl, rfl, payloadPlain, rfl⟩ (by decide)

/-- C10: `changeLangOnServer` is not atomic on error — when the user
is signed in, the token refresh and the local write succeed, but the
server PUT fails (transport rejection or non-ok HTTP status), it
returns `{success: false, error}`, yet the local key `'lang'` already
holds the new language code (the previous value is shadowed, not
restored), no `_langChanged` event is emitted, and the callback is
not run. -/
theorem C10_non_atomic (env : LangEnv) (itemValue : String) (hasCallback : Bool)
    (st : AppState)
    (huser : env.currentUser = true)
    (htok : ∃ tok, env.idToken = .ok tok)
    (hset : env.setItemResult = .ok ())
    (hfail : (∃ e, env.response = .error e) ∨
      ∃ response, env.response = .ok response ∧ response.ok = false) :
    ((changeLangOnServer env itemValue hasCallback st).1).success = false ∧
    ((changeLangOnServer env itemValue hasCallback st).1).error.isSome = true ∧
    getItem (changeLangOnServer env itemValue hasCallback st).2.storage "lang" =
      some itemValue ∧
    (changeLangOnServer env itemValue hasCallback st).2.events = st.events ∧
    (changeLangOnServer env itemValue hasCallback st).2.callbackRuns = st.callbackRuns := by
  obtain ⟨tok, htok⟩ := htok
  rcases hfail with ⟨e, hresp⟩ | ⟨response, hresp, hok⟩
  · simp [changeLangOnServer, changeLangOnServerBody, huser, htok, hset,
      hresp, setItem, getItem]
  · simp [changeLangOnServer, changeLangOnServerBody, huser, htok, hset,
      hresp, hok, setItem, getItem]

/-- Witness for C10: the PUT transport rejects after the local write;
the store already holds `"es"`, yet the run reports failure and emits
nothing. -/
theorem C10_witness :
    ((changeLangOnServer envPutRejected "es" true emptyState).1).success = false ∧
    ((changeLangOnServer envPutRejected "es" true emptyState).1).error.isSome = true ∧
    getItem (changeLangOnServer envPutRejected "es" true emptyState).2.storage "lang" =
      some "es" ∧
    (changeLangOnServer envPutRejected "es" true emptyState).2.events = emptyState.events ∧
    (changeLangOnServer envPutRejected "es" true emptyState).2.callbackRuns =
      emptyState.callbackRuns :=
  C10_non_atomic envPutRejected "es" true emptyState rfl ⟨"tok", rfl⟩ rfl
    (Or.inl ⟨.error "Network request failed", rfl⟩)

end Ealloora
